import Mathlib

/-!
Shallow embedding of the provider-fallback orchestration logic of the
Snap Chef repository (src/lib/api.ts, src/lib/aiServices.ts,
src/pages/Index.tsx), together with theorems settling the claims about it.

Conventions of the embedding:
* JavaScript strings are Lean `String`s; per-character operations
  (`toLowerCase`, `includes`, `split`, …) are modelled on `List Char`.
* JavaScript numbers are modelled as `ℚ` (all numeric literals in the
  sources are decimal).
* A JSON field that may be absent at runtime is an `Option`; the JS
  `x || d` idiom (which replaces `undefined`, `""` and `0` by `d`) is
  modelled by the `jsOr…` helpers below.
* Provider HTTP calls are external I/O: a provider attempt is modelled by
  its outcome, an `Except String` value passed as a parameter; the
  coordinator functions are the pure fallback logic applied to those
  outcomes.
* `Math.random()`-driven choices are modelled by an explicit index
  parameter.
-/

/-! ## JavaScript-style string helpers -/

/-- JS `hay.includes(needle)` on char lists: some suffix of `hay` has
`needle` as a prefix. -/
def containsSubList (needle : List Char) : List Char → Bool
  | [] => needle.isEmpty
  | c :: rest => needle.isPrefixOf (c :: rest) || containsSubList needle rest

/-- JS `hay.includes(needle)` on strings. -/
def strIncludes (hay needle : String) : Bool :=
  containsSubList needle.data hay.data

/-- JS `s.toLowerCase()` (per-character, ASCII as in `Char.toLower`). -/
def jsToLower (s : String) : String :=
  String.mk (s.data.map Char.toLower)

/-- JS `v || d` for a possibly-missing string field: `undefined` and the
empty string (both falsy) are replaced by the default. -/
def jsOrS (v : Option String) (d : String) : String :=
  match v with
  | none => d
  | some s => if s = "" then d else s

/-- JS `v || d` for a possibly-missing number field: `undefined` and `0`
(both falsy) are replaced by the default. -/
def jsOrQ (v : Option ℚ) (d : ℚ) : ℚ :=
  match v with
  | none => d
  | some q => if q = 0 then d else q

/-- JS `s.split(sep)` on char lists (single-character separator). -/
def splitChar (sep : Char) : List Char → List (List Char)
  | [] => [[]]
  | c :: rest =>
    match splitChar sep rest with
    | [] => [[]]
    | g :: gs => if c = sep then [] :: g :: gs else (c :: g) :: gs

/-- JS `word.charAt(0).toUpperCase() + word.slice(1)`. -/
def capitalizeFirst : List Char → List Char
  | [] => []
  | c :: cs => c.toUpper :: cs

/-- JS `parts.join(sep)` for a single-character separator. -/
def joinWith (sep : Char) : List (List Char) → List Char
  | [] => []
  | [g] => g
  | g :: gs => g ++ sep :: joinWith sep gs

/-! ## Data model (src/lib/api.ts second revision, src/pages/Index.tsx) -/

/-- `FoodDetectionResult` of api.ts / `DetectedFood` of Index.tsx
(the latter simply lacks the optional `ingredients`). -/
structure FoodDetectionResult where
  name : String
  confidence : ℚ
  category : String
  ingredients : Option (List String)
deriving DecidableEq

/-- The `'Easy' | 'Medium' | 'Hard'` union type. -/
inductive Difficulty where
  | Easy
  | Medium
  | Hard
deriving DecidableEq

/-- The optional `nutrition` record of `ApiRecipe` / `Recipe`. -/
structure Nutrition where
  calories : ℚ
  protein : String
  carbs : String
  fat : String
deriving DecidableEq

/-- `ApiRecipe` of api.ts / `Recipe` of Index.tsx.  The `title` field is
an `Option` because `SpoonacularService.getRecipeDetails` copies it from
the raw payload without a default, so at runtime it can be `undefined`;
every other field is always assigned a proper value by each producer. -/
structure ApiRecipe where
  id : String
  title : Option String
  description : String
  image : String
  cookTime : String
  difficulty : Difficulty
  ingredients : List String
  instructions : List String
  nutrition : Option Nutrition
  sourceUrl : Option String
deriving DecidableEq

/-! ## ClarifaiService (api.ts) -/

namespace ClarifaiService

/-- The fixed category→keywords table of `ClarifaiService.categorizeFood`. -/
def categories : List (String × List String) :=
  [("Healthy", ["salad", "vegetable", "fruit", "quinoa", "kale"]),
   ("Protein", ["chicken", "beef", "fish", "egg", "tofu"]),
   ("Italian", ["pasta", "pizza", "lasagna", "risotto"]),
   ("Asian", ["sushi", "ramen", "stir-fry", "dim-sum"]),
   ("Dessert", ["cake", "cookie", "ice-cream", "chocolate"]),
   ("American", ["burger", "fries", "sandwich", "bbq"])]

/-- `ClarifaiService.categorizeFood`: first category (in table order) one
of whose keywords is contained in the lowercased name; `"General"`
otherwise. -/
def categorizeFood (name : String) : String :=
  match categories.find? (fun p => p.2.any (fun kw => strIncludes (jsToLower name) kw)) with
  | some p => p.1
  | none => "General"

/-- `ClarifaiService.formatFoodName`: split on `'-'`, capitalize each
word, join with spaces. -/
def formatFoodName (name : String) : String :=
  String.mk (joinWith ' ' ((splitChar '-' name.data).map capitalizeFirst))

/-- `Math.round(v * 100) / 100` (JS `Math.round` is `⌊x + 1/2⌋`). -/
def roundConfidence (v : ℚ) : ℚ :=
  (⌊v * 100 + 1/2⌋ : ℚ) / 100

/-- A Clarifai concept: `{ name, value }`. -/
structure Concept where
  name : String
  value : ℚ
deriving DecidableEq

/-- `ClarifaiService.extractIngredients` on `concepts.slice(0, 5)`. -/
def extractIngredients (concepts : List Concept) : List String :=
  concepts.map (fun c => formatFoodName c.name)

/-- The response-processing tail of `ClarifaiService.detectFood`: given
the parsed `concepts` array of a successful HTTP response, either throw
("No food detected in the image") or build the result from the top
concept.  Note the confidence is rounded but not clamped. -/
def detectFromConcepts (concepts : List Concept) : Except String FoodDetectionResult :=
  match concepts with
  | [] => .error "No food detected in the image"
  | top :: _ => .ok
      { name := formatFoodName top.name
        confidence := roundConfidence top.value
        category := categorizeFood top.name
        ingredients := some (extractIngredients (concepts.take 5)) }

end ClarifaiService

/-! ## FoodDetectionService (aiServices.ts) -/

namespace FoodDetectionService

/-- The fixed category→keywords table of
`FoodDetectionService.categorizeFood` (note: different categories,
keywords and default than the api.ts table). -/
def categories : List (String × List String) :=
  [("Asian", ["sushi", "ramen", "stir fry", "rice", "noodle"]),
   ("Italian", ["pasta", "pizza", "lasagna", "risotto"]),
   ("Mexican", ["taco", "burrito", "quesadilla", "salsa"]),
   ("American", ["burger", "fries", "sandwich", "bbq"]),
   ("Healthy", ["salad", "fruit", "vegetable", "grain"]),
   ("Dessert", ["cake", "cookie", "ice cream", "chocolate"]),
   ("Breakfast", ["pancake", "waffle", "egg", "cereal"])]

/-- `FoodDetectionService.categorizeFood`: first matching category in
table order, default `"International"`. -/
def categorizeFood (foodName : String) : String :=
  match categories.find? (fun p => p.2.any (fun kw => strIncludes (jsToLower foodName) kw)) with
  | some p => p.1
  | none => "International"

end FoodDetectionService

/-- `DetectedFood` of Index.tsx (used by aiServices.ts): no ingredients. -/
structure DetectedFood where
  name : String
  confidence : ℚ
  category : String
deriving DecidableEq

namespace FoodDetectionService

/-- The fixed mock table of `FoodDetectionService.mockDetection`. -/
def mockFoods : List DetectedFood :=
  [{ name := "Grilled Chicken Breast", confidence := 0.88, category := "Protein" },
   { name := "Caesar Salad", confidence := 0.92, category := "Healthy" },
   { name := "Spaghetti Carbonara", confidence := 0.87, category := "Italian" },
   { name := "Sushi Roll", confidence := 0.94, category := "Asian" },
   { name := "Chocolate Cake", confidence := 0.89, category := "Dessert" }]

/-- `FoodDetectionService.mockDetection`:
`mockFoods[Math.floor(Math.random() * mockFoods.length)]`, with the
random draw modelled by the index `idx` (reduced mod the table length,
exactly the range `Math.floor` produces). -/
def mockDetection (idx : Nat) : DetectedFood :=
  mockFoods.get ⟨idx % mockFoods.length, Nat.mod_lt _ (by decide)⟩

/-- `FoodDetectionService.detectFood`: try OpenAI, then Google, then
Hugging Face — each attempt's outcome is a parameter (an unconfigured
provider throws inside its method, so it is an `.error` outcome like any
other failure) — and fall back to `mockDetection` when every method
failed.  This function is total: it never propagates an error. -/
def detectFood (openaiR googleR hfR : Except String DetectedFood) (idx : Nat) : DetectedFood :=
  match openaiR with
  | .ok r => r
  | .error _ =>
    match googleR with
    | .ok r => r
    | .error _ =>
      match hfR with
      | .ok r => r
      | .error _ => mockDetection idx

end FoodDetectionService

/-- A fully populated detection result: nonempty name and category,
confidence within [0, 1]. -/
def DetectedOk (f : DetectedFood) : Prop :=
  f.name ≠ "" ∧ 0 ≤ f.confidence ∧ f.confidence ≤ 1 ∧ f.category ≠ ""

namespace FoodApiService

/-- `FoodApiService.analyzeFood` (api.ts): try OpenAI if configured, then
Clarifai if configured; when neither is configured or both attempts fail,
it **throws** — there is no mock fallback in this coordinator. -/
def analyzeFood (openaiConfigured : Bool) (openaiR : Except String FoodDetectionResult)
    (clarifaiConfigured : Bool) (clarifaiR : Except String FoodDetectionResult) :
    Except String FoodDetectionResult :=
  match (if openaiConfigured then openaiR.toOption else none) with
  | some r => .ok r
  | none =>
    match (if clarifaiConfigured then clarifaiR.toOption else none) with
    | some r => .ok r
    | none => .error "No food detection API configured or all APIs failed"

/-- `FoodApiService.getMockRecipes`: the final mock fallback of
`getRecipes` — a single hardcoded recipe built from the detection. -/
def getMockRecipes (detectedFood : FoodDetectionResult) : List ApiRecipe :=
  [{ id := "mock1"
     title := some (detectedFood.name ++ " Recipe")
     description := "A delicious recipe featuring " ++ detectedFood.name
     image := "https://images.unsplash.com/photo-1546069901-ba9599a7e63c?w=400&h=300&fit=crop"
     cookTime := "25 mins"
     difficulty := .Medium
     ingredients :=
       match detectedFood.ingredients with
       | some l => l
       | none => ["Main ingredient", "Seasoning", "Oil"]
     instructions := ["Prepare ingredients", "Cook according to preference", "Serve hot"]
     nutrition := some { calories := 300, protein := "20g", carbs := "30g", fat := "10g" }
     sourceUrl := none }]

/-- `FoodApiService.getRecipes` (api.ts): try OpenAI if configured, then
Spoonacular if configured, then fall back to `getMockRecipes`.  An
unconfigured provider is skipped; a failed attempt falls through. -/
def getRecipes (openaiConfigured : Bool) (openaiR : Except String (List ApiRecipe))
    (spoonacularConfigured : Bool) (spoonacularR : Except String (List ApiRecipe))
    (detectedFood : FoodDetectionResult) : List ApiRecipe :=
  match (if openaiConfigured then openaiR.toOption else none) with
  | some rs => rs
  | none =>
    match (if spoonacularConfigured then spoonacularR.toOption else none) with
    | some rs => rs
    | none => getMockRecipes detectedFood

end FoodApiService

/-- A concrete detection result used by counterexamples. -/
def samplePastaDetection : FoodDetectionResult :=
  { name := "Pasta", confidence := 0.9, category := "Italian", ingredients := none }

/-! ## Regex and JSON-span helpers (OpenAIService, api.ts) -/

/-- JS `\s` (the whitespace characters that occur in practice). -/
def isWs (c : Char) : Bool :=
  c = ' ' || c = '\t' || c = '\n' || c = '\r'

/-- Length of the maximal whitespace run at the head of the list. -/
def wsRun (cs : List Char) : Nat :=
  (cs.takeWhile isWs).length

/-- The capture of `\s*([^\n]+)` with greedy backtracking: starting from
`k` consumed whitespace characters and giving back one at a time, the
first suffix whose head is not a newline yields the capture
(`takeWhile (· ≠ '\n')` of that suffix). -/
def captureNonNl (cs : List Char) : Nat → Option (List Char)
  | 0 =>
    match cs with
    | c :: _ => if c = '\n' then none else some (cs.takeWhile (fun x => x ≠ '\n'))
    | [] => none
  | k + 1 =>
    match cs.drop (k + 1) with
    | c :: rest =>
      if c = '\n' then captureNonNl cs k
      else some ((c :: rest).takeWhile (fun x => x ≠ '\n'))
    | [] => captureNonNl cs k

/-- The regex `/(?:food|dish|item):\s*([^\n]+)/`: scan left to right; at
each position try each alternative keyword, and on a keyword match take
the `\s*([^\n]+)` capture; if the capture fails the scan continues. -/
def scanNameMatch (keys : List (List Char)) : List Char → Option (List Char)
  | [] => none
  | c :: rest =>
    match keys.findSome? (fun k =>
      if k.isPrefixOf (c :: rest) then
        captureNonNl ((c :: rest).drop k.length) (wsRun ((c :: rest).drop k.length))
      else none) with
    | some cap => some cap
    | none => scanNameMatch keys rest

/-- Digit-or-dot characters, the class `[0-9.]`. -/
def isDigitDot (c : Char) : Bool :=
  c.isDigit || c = '.'

/-- The regex `/confidence:\s*([0-9.]+)/`: scan for the literal
`confidence:`, skip whitespace, capture a nonempty run of `[0-9.]`
(whitespace and the captured class are disjoint, so no backtracking
interaction arises). -/
def scanConfMatch : List Char → Option (List Char)
  | [] => none
  | c :: rest =>
    if ("confidence:".data).isPrefixOf (c :: rest) then
      let cap := (((c :: rest).drop 11).dropWhile isWs).takeWhile isDigitDot
      if cap.isEmpty then scanConfMatch rest else some cap
    else scanConfMatch rest

/-- Decimal value of a digit run. -/
def digitsToNat (cs : List Char) : Nat :=
  cs.foldl (fun n c => 10 * n + (c.toNat - 48)) 0

/-- JS `parseFloat` on a `[0-9.]+` capture: integer part, at most one
dot, fractional part; parsing stops at a second dot.  `none` models
`NaN` (capture `"."`). -/
def parseFloatQ (cs : List Char) : Option ℚ :=
  let intPart := cs.takeWhile Char.isDigit
  match cs.drop intPart.length with
  | '.' :: rest =>
    let fracPart := rest.takeWhile Char.isDigit
    if intPart.isEmpty && fracPart.isEmpty then none
    else some ((digitsToNat intPart : ℚ) + (digitsToNat fracPart : ℚ) / 10 ^ fracPart.length)
  | _ => if intPart.isEmpty then none else some (digitsToNat intPart)

/-- JS `s.trim()`. -/
def jsTrim (cs : List Char) : List Char :=
  ((cs.dropWhile isWs).reverse.dropWhile isWs).reverse

/-- The regex `/\{[\s\S]*\}/` (resp. `/\[[\s\S]*\]/` with brackets):
greedy span from the **first** opening character to the **last** closing
character at or after it; `none` when no such span exists.  Note this is
not "the first well-formed JSON substring": the greedy `[\s\S]*`
stretches to the last closer in the whole text. -/
def braceSpan (oc cc : Char) (cs : List Char) : Option (List Char) :=
  let rest := cs.dropWhile (fun c => c ≠ oc)
  if rest.isEmpty then none
  else
    let upto := (rest.reverse.dropWhile (fun c => c ≠ cc)).reverse
    if upto.isEmpty then none else some upto

/-! ## OpenAIService (api.ts) -/

namespace OpenAIService

/-- `Math.min(Math.max(result.confidence || 0.8, 0), 1)`: a missing or
zero (falsy) confidence becomes 0.8, then the value is clamped to
[0, 1]. -/
def clampConfidence (raw : Option ℚ) : ℚ :=
  min (max (jsOrQ raw 0.8) 0) 1

/-- The JSON payload shape `OpenAIService.detectFood` expects; every
field may be absent in what the model actually returned. -/
structure DetectPayload where
  name : Option String
  confidence : Option ℚ
  category : Option String
  ingredients : Option (List String)
deriving DecidableEq

/-- The normalization `OpenAIService.detectFood` applies to a
successfully parsed payload: defaults for falsy fields, clamped
confidence. -/
def normalizeDetection (p : DetectPayload) : FoodDetectionResult :=
  { name := jsOrS p.name "Unknown Food"
    confidence := clampConfidence p.confidence
    category := jsOrS p.category "General"
    ingredients := some (p.ingredients.getD []) }

/-- The keyword alternatives of the name regex in `parseTextResponse`. -/
def nameKeys : List (List Char) :=
  ["food:".data, "dish:".data, "item:".data]

/-- The category names scanned by `parseTextResponse`. -/
def textCategories : List String :=
  ["healthy", "protein", "italian", "asian", "dessert", "american"]

/-- `OpenAIService.parseTextResponse`: the text-parsing fallback used
when JSON extraction or parsing fails.  Works on the lowercased content;
a missing `NaN` corner (`parseFloat(".")`) is approximated by the 0.85
default. -/
def parseTextResponse (content : String) : FoodDetectionResult :=
  let lines := jsToLower content
  { name :=
      match scanNameMatch nameKeys lines.data with
      | some cap => String.mk (jsTrim cap)
      | none => "Detected Food"
    confidence :=
      match scanConfMatch lines.data with
      | some cap => (parseFloatQ cap).getD 0.85
      | none => 0.85
    category :=
      match textCategories.find? (fun cat => strIncludes lines cat) with
      | some cat => String.mk (capitalizeFirst cat.data)
      | none => "General"
    ingredients := some [] }

/-- The part of `OpenAIService.detectFood` that processes a nonempty
response `content`: extract the `/\{[\s\S]*\}/` span and normalize the
parsed payload; when extraction or `JSON.parse` fails (the parse outcome
of the external `JSON.parse` builtin is the parameter `parsed`), the
catch block returns `parseTextResponse content` — it does **not** fail
the provider. -/
def detectFromContent (content : String) (parsed : Option DetectPayload) :
    FoodDetectionResult :=
  match braceSpan '{' '}' content.data with
  | none => parseTextResponse content
  | some _ =>
    match parsed with
    | none => parseTextResponse content
    | some p => normalizeDetection p

/-- The fixed category→image table of `OpenAIService.getRecipeImage`. -/
def imageMap : List (String × String) :=
  [("Healthy", "https://images.unsplash.com/photo-1512621776951-a57141f2eefd?w=400&h=300&fit=crop"),
   ("Protein", "https://images.unsplash.com/photo-1532550907401-a500c9a57435?w=400&h=300&fit=crop"),
   ("Italian", "https://images.unsplash.com/photo-1621996346565-e3dbc353d2e5?w=400&h=300&fit=crop"),
   ("Asian", "https://images.unsplash.com/photo-1512058564366-18510be2db19?w=400&h=300&fit=crop"),
   ("Dessert", "https://images.unsplash.com/photo-1551024506-0bccd828d307?w=400&h=300&fit=crop"),
   ("American", "https://images.unsplash.com/photo-1568901346375-23c9450c58cd?w=400&h=300&fit=crop")]

/-- `OpenAIService.getRecipeImage`: category lookup with a default; the
`title` argument is accepted and ignored, as in the source. -/
def getRecipeImage (title : Option String) (category : String) : String :=
  match imageMap.find? (fun p => p.1 == category) with
  | some p => p.2
  | none => "https://images.unsplash.com/photo-1546069901-ba9599a7e63c?w=400&h=300&fit=crop"

/-- The JSON shape `OpenAIService.generateRecipes` expects per recipe;
every field may be absent. -/
structure RawRecipe where
  id : Option String
  title : Option String
  description : Option String
  cookTime : Option String
  difficulty : Option Difficulty
  ingredients : Option (List String)
  instructions : Option (List String)
  nutrition : Option Nutrition
deriving DecidableEq

/-- The `recipes.map((recipe, index) => …)` normalization of
`OpenAIService.generateRecipes`: every field gets a default when
falsy/absent. -/
def mapGeneratedRecipe (detectedFood : FoodDetectionResult) (index : Nat)
    (recipe : RawRecipe) : ApiRecipe :=
  { id := jsOrS recipe.id ("openai_" ++ toString (index + 1))
    title := some (jsOrS recipe.title "Generated Recipe")
    description := jsOrS recipe.description "Delicious recipe generated by AI"
    image := getRecipeImage recipe.title detectedFood.category
    cookTime := jsOrS recipe.cookTime "30 mins"
    difficulty := recipe.difficulty.getD .Medium
    ingredients := recipe.ingredients.getD []
    instructions := recipe.instructions.getD []
    nutrition := some (recipe.nutrition.getD
      { calories := 300, protein := "20g", carbs := "25g", fat := "15g" })
    sourceUrl := none }

/-- `OpenAIService.generateFallbackRecipes`: `count` template recipes
built from the detection, returned when recipe-JSON parsing fails. -/
def generateFallbackRecipes (detectedFood : FoodDetectionResult) (count : Nat) :
    List ApiRecipe :=
  (List.range count).map (fun i =>
    { id := "fallback_" ++ toString (i + 1)
      title := some (detectedFood.name ++ " Recipe " ++ toString (i + 1))
      description := "A delicious recipe featuring " ++ detectedFood.name
      image := getRecipeImage (some "") detectedFood.category
      cookTime := "30 mins"
      difficulty := .Medium
      ingredients :=
        match detectedFood.ingredients with
        | some l => l
        | none => ["Main ingredient", "Seasoning", "Oil"]
      instructions := ["Prepare ingredients", "Cook according to preference", "Serve hot"]
      nutrition := some { calories := 300, protein := "20g", carbs := "25g", fat := "15g" }
      sourceUrl := none })

/-- The part of `OpenAIService.generateRecipes` that processes a
nonempty response `content`: extract the `/\[[\s\S]*\]/` span and map
the parsed recipe array through `mapGeneratedRecipe`; when extraction or
`JSON.parse` fails (parse outcome is the parameter `parsed`), the catch
block returns `generateFallbackRecipes` — it does **not** fail the
provider. -/
def generateFromContent (detectedFood : FoodDetectionResult) (content : String)
    (parsed : Option (List RawRecipe)) (count : Nat) : List ApiRecipe :=
  match braceSpan '[' ']' content.data with
  | none => generateFallbackRecipes detectedFood count
  | some _ =>
    match parsed with
    | none => generateFallbackRecipes detectedFood count
    | some recipes => recipes.mapIdx (fun i r => mapGeneratedRecipe detectedFood i r)

end OpenAIService

/-! ## SpoonacularService (api.ts) -/

/-- One pass of the regex replace `/<[^>]*>/g`: drop everything up to
and including the next `'>'`; `none` when no `'>'` remains (then the
`'<'` does not start a match and is kept). -/
def dropTag : List Char → Option (List Char)
  | [] => none
  | c :: rest => if c = '>' then some rest else dropTag rest

/-- `summary.replace(/<[^>]*>/g, '')`, fuelled by the text length (each
step consumes at least one character). -/
def stripTagsFuel : Nat → List Char → List Char
  | 0, _ => []
  | _, [] => []
  | fuel + 1, c :: rest =>
    if c = '<' then
      match dropTag rest with
      | some rest2 => stripTagsFuel fuel rest2
      | none => c :: stripTagsFuel fuel rest
    else c :: stripTagsFuel fuel rest

/-- `summary.replace(/<[^>]*>/g, '')`. -/
def stripTags (cs : List Char) : List Char :=
  stripTagsFuel cs.length cs

namespace SpoonacularService

/-- One entry of the `nutrition.nutrients` array. -/
structure RawNutrient where
  name : String
  amount : ℚ
deriving DecidableEq

/-- The raw recipe payload of the Spoonacular information endpoint as
`getRecipeDetails` consumes it.  `extendedIngredients` is modelled by the
list of its entries' `original` strings, `analyzedInstructions` by the
per-block lists of `step` strings, `nutrition` by its `nutrients` array
(`none` covers both a missing `nutrition` and missing `nutrients`). -/
structure RawRecipe where
  id : Option Int
  title : Option String
  summary : Option String
  image : Option String
  readyInMinutes : Option ℚ
  extendedIngredients : Option (List String)
  analyzedInstructions : Option (List (List String))
  nutrition : Option (List RawNutrient)
  sourceUrl : Option String
deriving DecidableEq

/-- JS `x <= y` where `x` may be `undefined` (then the comparison is
false). -/
def jsLeQ (x : Option ℚ) (y : ℚ) : Bool :=
  match x with
  | some v => v ≤ y
  | none => false

/-- JS `x <= y` on a possibly-`undefined` count. -/
def jsLeN (x : Option Nat) (y : Nat) : Bool :=
  match x with
  | some v => v ≤ y
  | none => false

/-- `SpoonacularService.determineDifficulty`. -/
def determineDifficulty (cookTime : Option ℚ) (ingredientCount : Option Nat) : Difficulty :=
  if jsLeQ cookTime 15 && jsLeN ingredientCount 5 then .Easy
  else if jsLeQ cookTime 45 && jsLeN ingredientCount 10 then .Medium
  else .Hard

/-- `SpoonacularService.parseNutrition`; the `?.amount || 0` defaults
(0 stays 0 either way) are `getD 0`.  JS number formatting of the `ℚ`
amounts is approximated by `toString`; no claim inspects these strings. -/
def parseNutrition (nutrition : Option (List RawNutrient)) : Option Nutrition :=
  match nutrition with
  | none => none
  | some nutrients => some
    { calories := ((nutrients.find? (fun n => n.name == "Calories")).map (fun n => n.amount)).getD 0
      protein := toString (((nutrients.find? (fun n => n.name == "Protein")).map (fun n => n.amount)).getD 0) ++ "g"
      carbs := toString (((nutrients.find? (fun n => n.name == "Carbohydrates")).map (fun n => n.amount)).getD 0) ++ "g"
      fat := toString (((nutrients.find? (fun n => n.name == "Fat")).map (fun n => n.amount)).getD 0) ++ "g" }

/-- The response-processing tail of `SpoonacularService.getRecipeDetails`
on the parsed payload of a successful HTTP response.
`recipe.id.toString()` throws a `TypeError` when `id` is `undefined`;
`title` is copied with **no default**; a missing `summary` produces the
JS quirk `undefined + '...' = "undefined..."` (the `|| 'Delicious
recipe'` default is unreachable because the concatenation always ends in
`"..."`). -/
def getRecipeDetails (recipe : RawRecipe) : Except String ApiRecipe :=
  match recipe.id with
  | none => .error "TypeError: cannot read id of undefined"
  | some rid => .ok
    { id := toString rid
      title := recipe.title
      description :=
        match recipe.summary with
        | some s => String.mk ((stripTags s.data).take 150) ++ "..."
        | none => "undefined" ++ "..."
      image := jsOrS recipe.image "https://images.unsplash.com/photo-1546069901-ba9599a7e63c?w=400&h=300&fit=crop"
      cookTime := toString (jsOrQ recipe.readyInMinutes 30) ++ " mins"
      difficulty := determineDifficulty recipe.readyInMinutes
        (recipe.extendedIngredients.map (fun l => l.length))
      ingredients := recipe.extendedIngredients.getD []
      instructions :=
        match recipe.analyzedInstructions with
        | some (b :: _) => b
        | _ => []
      nutrition := parseNutrition recipe.nutrition
      sourceUrl := recipe.sourceUrl }

end SpoonacularService

/-! ## Index.tsx: mock analysis, recipe tables, saved-recipe toggle -/

namespace IndexPage

/-- One entry of the `foodDetections` table of `analyzeImage`. -/
structure MockDetectionEntry where
  name : String
  confidence : ℚ
  category : String
  keywords : List String
deriving DecidableEq

/-- The fixed `foodDetections` table of `analyzeImage` (Index.tsx). -/
def foodDetections : List MockDetectionEntry :=
  [{ name := "Fresh Garden Salad", confidence := 0.92, category := "Healthy",
     keywords := ["salad", "lettuce", "green"] },
   { name := "Grilled Chicken Breast", confidence := 0.88, category := "Protein",
     keywords := ["chicken", "meat", "grilled"] },
   { name := "Sushi Roll", confidence := 0.94, category := "Japanese",
     keywords := ["sushi", "roll", "rice"] },
   { name := "Chocolate Cake", confidence := 0.89, category := "Dessert",
     keywords := ["cake", "chocolate", "dessert"] },
   { name := "Beef Burger", confidence := 0.91, category := "American",
     keywords := ["burger", "beef", "sandwich"] },
   { name := "Pasta Carbonara", confidence := 0.87, category := "Italian",
     keywords := ["pasta", "noodle", "carbonara"] },
   { name := "Vegetable Stir Fry", confidence := 0.85, category := "Asian",
     keywords := ["vegetable", "stir", "wok"] },
   { name := "Fresh Fruit Bowl", confidence := 0.93, category := "Healthy",
     keywords := ["fruit", "bowl", "fresh"] },
   { name := "Pizza Margherita", confidence := 0.90, category := "Italian",
     keywords := ["pizza", "cheese", "tomato"] },
   { name := "Fish and Chips", confidence := 0.86, category := "British",
     keywords := ["fish", "chips", "fried"] }]

/-- `analyzeImage` (Index.tsx): keyword match of the lowercased image
reference against the table, else a pseudo-random entry (the random draw
modelled by `idx`).  This local lookup is total. -/
def analyzeImage (imageUrl : String) (idx : Nat) : DetectedFood :=
  let filename := jsToLower imageUrl
  match foodDetections.find? (fun d => d.keywords.any (fun kw => strIncludes filename kw)) with
  | some d => { name := d.name, confidence := d.confidence, category := d.category }
  | none =>
    let r := foodDetections.get ⟨idx % foodDetections.length, Nat.mod_lt _ (by decide)⟩
    { name := r.name, confidence := r.confidence, category := r.category }

/-- `handleSaveRecipe`'s state update: remove the id when present
(JS `prev.filter(id => id !== recipeId)`), append it otherwise. -/
def handleSaveRecipe (recipeId : String) (prev : List String) : List String :=
  if recipeId ∈ prev then prev.filter (fun idStr => idStr ≠ recipeId)
  else prev ++ [recipeId]

/-- The `allRecipes.salad` table. -/
def saladRecipes : List ApiRecipe :=
  [{ id := "s1", title := some "Caesar Salad"
     description := "Classic Caesar salad with crispy croutons and parmesan"
     image := "https://images.unsplash.com/photo-1551248429-40975aa4de74?w=400&h=300&fit=crop"
     cookTime := "15 mins", difficulty := .Easy
     ingredients := ["Romaine lettuce", "Caesar dressing", "Croutons", "Parmesan cheese"]
     instructions := ["Wash and chop lettuce", "Add dressing", "Top with croutons and cheese"]
     nutrition := some { calories := 180, protein := "8g", carbs := "12g", fat := "14g" }
     sourceUrl := none },
   { id := "s2", title := some "Mediterranean Salad"
     description := "Fresh Mediterranean salad with olives and feta"
     image := "https://images.unsplash.com/photo-1540420773420-3366772f4999?w=400&h=300&fit=crop"
     cookTime := "10 mins", difficulty := .Easy
     ingredients := ["Mixed greens", "Olives", "Feta cheese", "Olive oil"]
     instructions := ["Mix greens", "Add olives and feta", "Drizzle with olive oil"]
     nutrition := some { calories := 220, protein := "10g", carbs := "8g", fat := "18g" }
     sourceUrl := none }]

/-- The `allRecipes.chicken` table. -/
def chickenRecipes : List ApiRecipe :=
  [{ id := "c1", title := some "Herb Grilled Chicken"
     description := "Juicy grilled chicken with fresh herbs and spices"
     image := "https://images.unsplash.com/photo-1532550907401-a500c9a57435?w=400&h=300&fit=crop"
     cookTime := "25 mins", difficulty := .Medium
     ingredients := ["Chicken breast", "Fresh herbs", "Olive oil", "Garlic"]
     instructions := ["Marinate chicken", "Preheat grill", "Grill until cooked through"]
     nutrition := some { calories := 320, protein := "35g", carbs := "2g", fat := "18g" }
     sourceUrl := none },
   { id := "c2", title := some "Chicken Teriyaki"
     description := "Sweet and savory teriyaki glazed chicken"
     image := "https://images.unsplash.com/photo-1606491956689-2ea866880c84?w=400&h=300&fit=crop"
     cookTime := "20 mins", difficulty := .Easy
     ingredients := ["Chicken thighs", "Teriyaki sauce", "Rice", "Green onions"]
     instructions := ["Cook chicken", "Add teriyaki sauce", "Serve over rice"]
     nutrition := some { calories := 380, protein := "28g", carbs := "35g", fat := "12g" }
     sourceUrl := none }]

/-- The `allRecipes.sushi` table. -/
def sushiRecipes : List ApiRecipe :=
  [{ id := "su1", title := some "California Roll"
     description := "Classic California roll with crab and avocado"
     image := "https://images.unsplash.com/photo-1579584425555-c3ce17fd4351?w=400&h=300&fit=crop"
     cookTime := "30 mins", difficulty := .Hard
     ingredients := ["Sushi rice", "Nori", "Crab stick", "Avocado", "Cucumber"]
     instructions := ["Prepare sushi rice", "Roll with filling", "Slice carefully"]
     nutrition := some { calories := 250, protein := "12g", carbs := "45g", fat := "8g" }
     sourceUrl := none },
   { id := "su2", title := some "Salmon Nigiri"
     description := "Fresh salmon over seasoned sushi rice"
     image := "https://images.unsplash.com/photo-1563612116625-3012372fccce?w=400&h=300&fit=crop"
     cookTime := "20 mins", difficulty := .Medium
     ingredients := ["Sushi rice", "Fresh salmon", "Wasabi", "Soy sauce"]
     instructions := ["Prepare sushi rice", "Slice salmon", "Form nigiri"]
     nutrition := some { calories := 180, protein := "15g", carbs := "20g", fat := "6g" }
     sourceUrl := none }]

/-- The `allRecipes.pasta` table. -/
def pastaRecipes : List ApiRecipe :=
  [{ id := "p1", title := some "Classic Spaghetti Carbonara"
     description := "Authentic Italian pasta dish with eggs, cheese, and pancetta"
     image := "https://images.unsplash.com/photo-1621996346565-e3dbc353d2e5?w=400&h=300&fit=crop"
     cookTime := "20 mins", difficulty := .Medium
     ingredients := ["Spaghetti", "Pancetta", "Eggs", "Pecorino Romano", "Black pepper"]
     instructions := ["Cook pasta", "Fry pancetta", "Mix with egg mixture"]
     nutrition := some { calories := 580, protein := "25g", carbs := "65g", fat := "22g" }
     sourceUrl := none },
   { id := "p2", title := some "Marinara Pasta"
     description := "Simple and delicious tomato pasta"
     image := "https://images.unsplash.com/photo-1565299624946-b28f40a0ca4b?w=400&h=300&fit=crop"
     cookTime := "15 mins", difficulty := .Easy
     ingredients := ["Pasta", "Tomato sauce", "Garlic", "Basil", "Olive oil"]
     instructions := ["Cook pasta", "Make sauce", "Combine and serve"]
     nutrition := some { calories := 420, protein := "12g", carbs := "75g", fat := "8g" }
     sourceUrl := none }]

/-- The `allRecipes.burger` table. -/
def burgerRecipes : List ApiRecipe :=
  [{ id := "b1", title := some "Classic Beef Burger"
     description := "Juicy beef burger with fresh toppings"
     image := "https://images.unsplash.com/photo-1568901346375-23c9450c58cd?w=400&h=300&fit=crop"
     cookTime := "20 mins", difficulty := .Easy
     ingredients := ["Ground beef", "Burger buns", "Lettuce", "Tomato", "Onion", "Cheese"]
     instructions := ["Form patties", "Grill burgers", "Assemble with toppings"]
     nutrition := some { calories := 650, protein := "35g", carbs := "45g", fat := "35g" }
     sourceUrl := none },
   { id := "b2", title := some "Turkey Burger"
     description := "Lean turkey burger with avocado"
     image := "https://images.unsplash.com/photo-1553979459-d2229ba7433a?w=400&h=300&fit=crop"
     cookTime := "18 mins", difficulty := .Easy
     ingredients := ["Ground turkey", "Whole wheat buns", "Avocado", "Sprouts", "Red onion"]
     instructions := ["Season turkey", "Cook patties", "Serve with fresh toppings"]
     nutrition := some { calories := 480, protein := "30g", carbs := "35g", fat := "22g" }
     sourceUrl := none }]

/-- The `allRecipes.cake` table. -/
def cakeRecipes : List ApiRecipe :=
  [{ id := "ck1", title := some "Chocolate Fudge Cake"
     description := "Rich and moist chocolate cake with fudge frosting"
     image := "https://images.unsplash.com/photo-1578985545062-69928b1d9587?w=400&h=300&fit=crop"
     cookTime := "45 mins", difficulty := .Medium
     ingredients := ["Flour", "Cocoa powder", "Sugar", "Eggs", "Butter", "Chocolate"]
     instructions := ["Mix dry ingredients", "Add wet ingredients", "Bake and frost"]
     nutrition := some { calories := 420, protein := "6g", carbs := "65g", fat := "18g" }
     sourceUrl := none },
   { id := "ck2", title := some "Vanilla Sponge Cake"
     description := "Light and fluffy vanilla cake"
     image := "https://images.unsplash.com/photo-1464349095431-e9a21285b5f3?w=400&h=300&fit=crop"
     cookTime := "35 mins", difficulty := .Easy
     ingredients := ["Flour", "Sugar", "Eggs", "Butter", "Vanilla extract", "Baking powder"]
     instructions := ["Cream butter and sugar", "Add eggs and flour", "Bake until golden"]
     nutrition := some { calories := 320, protein := "5g", carbs := "55g", fat := "12g" }
     sourceUrl := none }]

/-- The `allRecipes.pizza` table. -/
def pizzaRecipes : List ApiRecipe :=
  [{ id := "pz1", title := some "Classic Margherita Pizza"
     description := "Traditional pizza with tomato, mozzarella, and basil"
     image := "https://images.unsplash.com/photo-1565299624946-b28f40a0ca4b?w=400&h=300&fit=crop"
     cookTime := "25 mins", difficulty := .Medium
     ingredients := ["Pizza dough", "Tomato sauce", "Mozzarella", "Fresh basil", "Olive oil"]
     instructions := ["Roll out dough", "Add sauce and cheese", "Bake until crispy"]
     nutrition := some { calories := 520, protein := "22g", carbs := "65g", fat := "18g" }
     sourceUrl := none },
   { id := "pz2", title := some "Pepperoni Pizza"
     description := "Classic pepperoni pizza with cheese"
     image := "https://images.unsplash.com/photo-1513104890138-7c749659a591?w=400&h=300&fit=crop"
     cookTime := "25 mins", difficulty := .Medium
     ingredients := ["Pizza dough", "Tomato sauce", "Mozzarella", "Pepperoni"]
     instructions := ["Prepare dough", "Add toppings", "Bake until golden"]
     nutrition := some { calories := 580, protein := "25g", carbs := "60g", fat := "24g" }
     sourceUrl := none }]

/-- The `allRecipes.fish` table. -/
def fishRecipes : List ApiRecipe :=
  [{ id := "f1", title := some "Beer Battered Fish"
     description := "Crispy beer battered fish with golden coating"
     image := "https://images.unsplash.com/photo-1544551763-46a013bb70d5?w=400&h=300&fit=crop"
     cookTime := "20 mins", difficulty := .Medium
     ingredients := ["White fish fillets", "Beer", "Flour", "Baking powder", "Salt"]
     instructions := ["Make batter", "Coat fish", "Fry until golden"]
     nutrition := some { calories := 380, protein := "28g", carbs := "25g", fat := "18g" }
     sourceUrl := none },
   { id := "f2", title := some "Grilled Salmon"
     description := "Healthy grilled salmon with herbs"
     image := "https://images.unsplash.com/photo-1485963631004-f2f00b1d6606?w=400&h=300&fit=crop"
     cookTime := "15 mins", difficulty := .Easy
     ingredients := ["Salmon fillets", "Lemon", "Dill", "Olive oil", "Garlic"]
     instructions := ["Season salmon", "Grill 6 mins per side", "Serve with lemon"]
     nutrition := some { calories := 280, protein := "32g", carbs := "2g", fat := "16g" }
     sourceUrl := none }]

/-- The `allRecipes.vegetable` table. -/
def vegetableRecipes : List ApiRecipe :=
  [{ id := "v1", title := some "Asian Vegetable Stir Fry"
     description := "Colorful vegetable stir fry with Asian flavors"
     image := "https://images.unsplash.com/photo-1512058564366-18510be2db19?w=400&h=300&fit=crop"
     cookTime := "15 mins", difficulty := .Easy
     ingredients := ["Mixed vegetables", "Soy sauce", "Garlic", "Ginger", "Sesame oil"]
     instructions := ["Heat oil in wok", "Add vegetables", "Stir fry with sauce"]
     nutrition := some { calories := 180, protein := "6g", carbs := "28g", fat := "6g" }
     sourceUrl := none },
   { id := "v2", title := some "Roasted Vegetable Medley"
     description := "Oven-roasted seasonal vegetables"
     image := "https://images.unsplash.com/photo-1540420773420-3366772f4999?w=400&h=300&fit=crop"
     cookTime := "30 mins", difficulty := .Easy
     ingredients := ["Root vegetables", "Olive oil", "Herbs", "Salt", "Pepper"]
     instructions := ["Chop vegetables", "Toss with oil and herbs", "Roast until tender"]
     nutrition := some { calories := 150, protein := "4g", carbs := "25g", fat := "5g" }
     sourceUrl := none }]

/-- The `allRecipes.fruit` table. -/
def fruitRecipes : List ApiRecipe :=
  [{ id := "fr1", title := some "Fresh Fruit Salad"
     description := "Refreshing mixed fruit salad with honey dressing"
     image := "https://images.unsplash.com/photo-1546833999-b9f581a1996d?w=400&h=300&fit=crop"
     cookTime := "10 mins", difficulty := .Easy
     ingredients := ["Mixed seasonal fruits", "Honey", "Lime juice", "Mint leaves"]
     instructions := ["Chop fruits", "Mix with honey and lime", "Garnish with mint"]
     nutrition := some { calories := 120, protein := "2g", carbs := "30g", fat := "0g" }
     sourceUrl := none },
   { id := "fr2", title := some "Fruit Smoothie Bowl"
     description := "Healthy smoothie bowl with fresh toppings"
     image := "https://images.unsplash.com/photo-1490645935967-10de6ba17061?w=400&h=300&fit=crop"
     cookTime := "5 mins", difficulty := .Easy
     ingredients := ["Frozen berries", "Banana", "Yogurt", "Granola", "Coconut flakes"]
     instructions := ["Blend frozen fruits", "Pour into bowl", "Add toppings"]
     nutrition := some { calories := 280, protein := "12g", carbs := "45g", fat := "8g" }
     sourceUrl := none }]

/-- The `allRecipes.default` table (the default mock recipe pool). -/
def defaultRecipes : List ApiRecipe :=
  [{ id := "d1", title := some "Quick Stir Fry"
     description := "Healthy and quick vegetable stir fry"
     image := "https://images.unsplash.com/photo-1512058564366-18510be2db19?w=400&h=300&fit=crop"
     cookTime := "15 mins", difficulty := .Easy
     ingredients := ["Mixed vegetables", "Soy sauce", "Garlic", "Ginger"]
     instructions := ["Heat oil", "Add vegetables", "Stir fry with sauce"]
     nutrition := some { calories := 180, protein := "6g", carbs := "28g", fat := "6g" }
     sourceUrl := none },
   { id := "d2", title := some "Simple Omelet"
     description := "Fluffy omelet with herbs"
     image := "https://images.unsplash.com/photo-1506084868230-bb9d95c24759?w=400&h=300&fit=crop"
     cookTime := "10 mins", difficulty := .Easy
     ingredients := ["Eggs", "Milk", "Herbs", "Butter"]
     instructions := ["Beat eggs", "Cook in pan", "Fold and serve"]
     nutrition := some { calories := 240, protein := "16g", carbs := "2g", fat := "18g" }
     sourceUrl := none }]

/-- The keyword cascade of `getRelevantRecipes` selecting the recipe-set
key from the lowercased food name. -/
def recipeKeyOf (foodName : String) : String :=
  let l := jsToLower foodName
  if strIncludes l "salad" then "salad"
  else if strIncludes l "chicken" then "chicken"
  else if strIncludes l "sushi" then "sushi"
  else if strIncludes l "pasta" || strIncludes l "carbonara" then "pasta"
  else if strIncludes l "burger" then "burger"
  else if strIncludes l "cake" || strIncludes l "chocolate" then "cake"
  else if strIncludes l "pizza" then "pizza"
  else if strIncludes l "fish" || strIncludes l "chips" then "fish"
  else if strIncludes l "vegetable" || strIncludes l "stir fry" then "vegetable"
  else if strIncludes l "fruit" then "fruit"
  else "default"

/-- The `allRecipes[recipeKey] || allRecipes.default` lookup
(`recipeKeyOf` only produces the listed keys, so the `||` default is the
final branch). -/
def recipeSetFor (key : String) : List ApiRecipe :=
  if key = "salad" then saladRecipes
  else if key = "chicken" then chickenRecipes
  else if key = "sushi" then sushiRecipes
  else if key = "pasta" then pastaRecipes
  else if key = "burger" then burgerRecipes
  else if key = "cake" then cakeRecipes
  else if key = "pizza" then pizzaRecipes
  else if key = "fish" then fishRecipes
  else if key = "vegetable" then vegetableRecipes
  else if key = "fruit" then fruitRecipes
  else defaultRecipes

/-- `getRelevantRecipes` (Index.tsx): select the keyed mock set, pad
from the default pool up to 4 when it has fewer than 3 entries, and
return at most 4 recipes. -/
def getRelevantRecipes (foodName : String) (category : String) : List ApiRecipe :=
  let selected := recipeSetFor (recipeKeyOf foodName)
  let result :=
    if selected.length < 3 then selected ++ defaultRecipes.take (4 - selected.length)
    else selected
  result.take 4

end IndexPage

/-! ## A JSON well-formedness checker (spec side)

Modelled from the spec: "the coordinator must extract the first
well-formed JSON object/array substring from the response and parse it".
The source has no such function (it uses the greedy regex span
`braceSpan`), so well-formedness follows the JSON grammar: values are
objects, arrays, strings, numbers, `true`, `false`, `null`, with
whitespace between tokens. -/

/-- Skip JSON whitespace. -/
def skipWs (cs : List Char) : List Char :=
  cs.dropWhile isWs

/-- Consume a JSON string body after the opening quote (escapes skip the
next character). -/
def jsonStringRest : List Char → Option (List Char)
  | [] => none
  | '"' :: rest => some rest
  | '\\' :: _ :: rest => jsonStringRest rest
  | '\\' :: [] => none
  | _ :: rest => jsonStringRest rest

/-- Consume an expected literal tail (`rue`, `alse`, `ull`). -/
def stripLit : List Char → List Char → Option (List Char)
  | [], cs => some cs
  | _ :: _, [] => none
  | l :: ls, c :: cs => if c = l then stripLit ls cs else none

/-- Consume the exponent part of a JSON number after `e`/`E`. -/
def jsonExpRest (cs : List Char) : Option (List Char) :=
  let cs1 :=
    match cs with
    | '+' :: r => r
    | '-' :: r => r
    | _ => cs
  let ds := cs1.takeWhile Char.isDigit
  if ds.isEmpty then none else some (cs1.drop ds.length)

/-- Consume a JSON number. -/
def jsonNumberRest (cs : List Char) : Option (List Char) :=
  let cs1 :=
    match cs with
    | '-' :: r => r
    | _ => cs
  let ds := cs1.takeWhile Char.isDigit
  if ds.isEmpty then none
  else
    let r1 := cs1.drop ds.length
    let r2 :=
      match r1 with
      | '.' :: rr =>
        let fs := rr.takeWhile Char.isDigit
        if fs.isEmpty then none else some (rr.drop fs.length)
      | _ => some r1
    match r2 with
    | none => none
    | some r3 =>
      match r3 with
      | 'e' :: rr => jsonExpRest rr
      | 'E' :: rr => jsonExpRest rr
      | _ => some r3

mutual

/-- Consume one JSON value; fuelled (any value consumes at least one
character per fuel step, so `length + 1` fuel always suffices). -/
def jsonValue : Nat → List Char → Option (List Char)
  | 0, _ => none
  | fuel + 1, cs =>
    match skipWs cs with
    | '{' :: rest =>
      match skipWs rest with
      | '}' :: r2 => some r2
      | r2 => jsonMembers fuel r2
    | '[' :: rest =>
      match skipWs rest with
      | ']' :: r2 => some r2
      | r2 => jsonItems fuel r2
    | '"' :: rest => jsonStringRest rest
    | 't' :: rest => stripLit "rue".data rest
    | 'f' :: rest => stripLit "alse".data rest
    | 'n' :: rest => stripLit "ull".data rest
    | c :: rest =>
      if c.isDigit || c = '-' then jsonNumberRest (c :: rest) else none
    | [] => none

/-- Consume `"key": value (, …)* }` object members. -/
def jsonMembers : Nat → List Char → Option (List Char)
  | 0, _ => none
  | fuel + 1, cs =>
    match skipWs cs with
    | '"' :: rest =>
      match jsonStringRest rest with
      | some r2 =>
        match skipWs r2 with
        | ':' :: r3 =>
          match jsonValue fuel r3 with
          | some r4 =>
            match skipWs r4 with
            | ',' :: r5 => jsonMembers fuel r5
            | '}' :: r5 => some r5
            | _ => none
          | none => none
        | _ => none
      | none => none
    | _ => none

/-- Consume `value (, value)* ]` array items. -/
def jsonItems : Nat → List Char → Option (List Char)
  | 0, _ => none
  | fuel + 1, cs =>
    match jsonValue fuel cs with
    | some r =>
      match skipWs r with
      | ',' :: r2 => jsonItems fuel r2
      | ']' :: r2 => some r2
      | _ => none
    | none => none

end

/-- A char list is exactly one well-formed JSON object or array. -/
def isJsonObjArr (cs : List Char) : Bool :=
  match cs with
  | '{' :: _ =>
    match jsonValue (cs.length + 1) cs with
    | some rest => rest.isEmpty
    | none => false
  | '[' :: _ =>
    match jsonValue (cs.length + 1) cs with
    | some rest => rest.isEmpty
    | none => false
  | _ => false

/-- Modelled from the spec: the **first well-formed JSON object/array
substring** of a text — earliest start position, and at a given start the
shortest complete parse.  (The source never computes this; compare
`braceSpan`.) -/
def firstJsonSubstring (cs : List Char) : Option (List Char) :=
  (List.range cs.length).findSome? (fun i =>
    (List.range (cs.length - i)).findSome? (fun len =>
      let sub := (cs.drop i).take (len + 1)
      if isJsonObjArr sub then some sub else none))

/-! ## Populated-result predicate and concrete sample values -/

/-- A fully populated recipe: the `title` is present, and the required
string fields are nonempty.  (`ingredients`/`instructions` are always
present as lists, and `nutrition`/`sourceUrl` are optional in the
interface.) -/
def RecipeOk (r : ApiRecipe) : Prop :=
  r.title.isSome = true ∧ r.id ≠ "" ∧ r.description ≠ "" ∧ r.image ≠ "" ∧ r.cookTime ≠ ""

/-- The secondary provider's result in the C6 flow counterexample. -/
def clarifaiAlt : FoodDetectionResult :=
  { name := "From Clarifai", confidence := 0.9, category := "Protein", ingredients := none }

/-- A Spoonacular payload that has an `id` but no `title` (nor any other
optional field). -/
def spoonRawNoTitle : SpoonacularService.RawRecipe :=
  { id := some 5, title := none, summary := none, image := none, readyInMinutes := none
    extendedIngredients := none, analyzedInstructions := none, nutrition := none
    sourceUrl := none }

/-- The recipe `getRecipeDetails` builds from `spoonRawNoTitle`, written
with the same field expressions the function produces. -/
def rNoTitle : ApiRecipe :=
  { id := toString (5 : ℤ)
    title := none
    description := "undefined" ++ "..."
    image := jsOrS none "https://images.unsplash.com/photo-1546069901-ba9599a7e63c?w=400&h=300&fit=crop"
    cookTime := toString (jsOrQ none 30) ++ " mins"
    difficulty := SpoonacularService.determineDifficulty none none
    ingredients := []
    instructions := []
    nutrition := none
    sourceUrl := none }

/-- An OpenAI recipe payload with every field absent. -/
def openAIRawEmpty : OpenAIService.RawRecipe :=
  { id := none, title := none, description := none, cookTime := none, difficulty := none
    ingredients := none, instructions := none, nutrition := none }

/-- An OpenAI detection payload with every field absent. -/
def openAIPayloadEmpty : OpenAIService.DetectPayload :=
  { name := none, confidence := none, category := none, ingredients := none }

/-! ## First theorems: categorization (claims C3, C9) -/

/-- Claim C3 counterexample: the claim says every categorization function
defaults to "General" when no keyword matches, but
`FoodDetectionService.categorizeFood` (aiServices.ts) defaults to
"International": on the name "zzz", which contains no keyword of any
category, it returns "International", not "General". -/
theorem categorizeFood_default_counterexample :
    FoodDetectionService.categorizeFood "zzz" = "International" ∧
    FoodDetectionService.categorizeFood "zzz" ≠ "General" := by
  constructor
  · rfl
  · decide

/-- Claim C3 (amended): both categorization functions map a food name to
a category by case-insensitive keyword containment against their fixed
per-category keyword tables, the first matching category in table order
wins — stated for each categorizer: if row `i` matches and no earlier
row does, the result is row `i`'s category — and when no keyword of any
category is contained in the name the api.ts function returns "General"
while the aiServices.ts function returns "International".
Case-insensitivity is stated as: the result depends only on the
lowercased name. -/
theorem categorizeFood_spec (name other : String) :
    (jsToLower name = jsToLower other →
      ClarifaiService.categorizeFood name = ClarifaiService.categorizeFood other ∧
      FoodDetectionService.categorizeFood name = FoodDetectionService.categorizeFood other) ∧
    ((∀ p ∈ ClarifaiService.categories, ∀ kw ∈ p.2,
        strIncludes (jsToLower name) kw = false) →
      ClarifaiService.categorizeFood name = "General") ∧
    ((∀ p ∈ FoodDetectionService.categories, ∀ kw ∈ p.2,
        strIncludes (jsToLower name) kw = false) →
      FoodDetectionService.categorizeFood name = "International") ∧
    (∀ i : Fin ClarifaiService.categories.length,
      (ClarifaiService.categories.get i).2.any
          (fun kw => strIncludes (jsToLower name) kw) = true →
      (∀ j : Fin ClarifaiService.categories.length, j < i →
        (ClarifaiService.categories.get j).2.any
            (fun kw => strIncludes (jsToLower name) kw) = false) →
      ClarifaiService.categorizeFood name = (ClarifaiService.categories.get i).1) ∧
    (∀ i : Fin FoodDetectionService.categories.length,
      (FoodDetectionService.categories.get i).2.any
          (fun kw => strIncludes (jsToLower name) kw) = true →
      (∀ j : Fin FoodDetectionService.categories.length, j < i →
        (FoodDetectionService.categories.get j).2.any
            (fun kw => strIncludes (jsToLower name) kw) = false) →
      FoodDetectionService.categorizeFood name =
        (FoodDetectionService.categories.get i).1) := by
  refine ⟨?_, ?_, ?_, ?_, ?_⟩
  · intro h
    constructor
    · unfold ClarifaiService.categorizeFood
      rw [h]
    · unfold FoodDetectionService.categorizeFood
      rw [h]
  · intro h
    unfold ClarifaiService.categorizeFood
    rw [List.find?_eq_none.mpr]
    intro p hp
    simp only [Bool.not_eq_true, List.any_eq_false]
    intro kw hkw
    exact h p hp kw hkw
  · intro h
    unfold FoodDetectionService.categorizeFood
    rw [List.find?_eq_none.mpr]
    intro p hp
    simp only [Bool.not_eq_true, List.any_eq_false]
    intro kw hkw
    exact h p hp kw hkw
  · intro i hi hbefore
    unfold ClarifaiService.categorizeFood
    have hfind : ClarifaiService.categories.find?
        (fun p => p.2.any (fun kw => strIncludes (jsToLower name) kw)) =
        some (ClarifaiService.categories.get i) := by
      apply List.find?_eq_some_iff_getElem.mpr
      refine ⟨hi, i, i.isLt, rfl, ?_⟩
      intro j hj
      have := hbefore ⟨j, Nat.lt_trans hj i.isLt⟩ hj
      simpa using this
    rw [hfind]
  · intro i hi hbefore
    unfold FoodDetectionService.categorizeFood
    have hfind : FoodDetectionService.categories.find?
        (fun p => p.2.any (fun kw => strIncludes (jsToLower name) kw)) =
        some (FoodDetectionService.categories.get i) := by
      apply List.find?_eq_some_iff_getElem.mpr
      refine ⟨hi, i, i.isLt, rfl, ?_⟩
      intro j hj
      have := hbefore ⟨j, Nat.lt_trans hj i.isLt⟩ hj
      simpa using this
    rw [hfind]

/-- Claim C3 witness: the amended theorem applied at concrete names —
"ZZZ"/"zzz" (same lowercase form, no keyword matches anywhere, so the
"General" default fires) and "Pasta Salad" (row 1 "Italian" of the
aiServices table is the first matching row: row 0 "Asian" has no
contained keyword). -/
theorem categorizeFood_spec_witness :
    ClarifaiService.categorizeFood "ZZZ" = ClarifaiService.categorizeFood "zzz" ∧
    ClarifaiService.categorizeFood "zzz" = "General" ∧
    FoodDetectionService.categorizeFood "Pasta Salad" =
      (FoodDetectionService.categories.get ⟨1, by decide⟩).1 := by
  refine ⟨((categorizeFood_spec "ZZZ" "zzz").1 (by decide)).1,
    (categorizeFood_spec "zzz" "zzz").2.1 (by decide), ?_⟩
  exact (categorizeFood_spec "Pasta Salad" "Pasta Salad").2.2.2.2 ⟨1, by decide⟩
    (by decide) (by decide)

/-- Claim C9: category lookup is deterministic — two runs of either
categorization function on equal food names (with the fixed keyword
tables baked into the functions) return equal categories. -/
theorem categorizeFood_deterministic (n₁ n₂ : String) (h : n₁ = n₂) :
    ClarifaiService.categorizeFood n₁ = ClarifaiService.categorizeFood n₂ ∧
    FoodDetectionService.categorizeFood n₁ = FoodDetectionService.categorizeFood n₂ := by
  rw [h]
  exact ⟨rfl, rfl⟩

/-- Claim C9 witness: determinism at the concrete name "chicken". -/
theorem categorizeFood_deterministic_witness :
    ClarifaiService.categorizeFood "chicken" = ClarifaiService.categorizeFood "chicken" ∧
    FoodDetectionService.categorizeFood "chicken" = FoodDetectionService.categorizeFood "chicken" :=
  categorizeFood_deterministic "chicken" "chicken" rfl

/-! ## Fallback behaviour of the coordinators (claims C1, C5) -/

/-- Every entry of the fixed mock detection table is fully populated. -/
theorem mockFoods_all_ok : ∀ f ∈ FoodDetectionService.mockFoods, DetectedOk f := by
  intro f hf
  fin_cases hf <;>
    exact ⟨by decide, by norm_num, by norm_num, by decide⟩

/-- Claim C1 counterexample: with no detection provider configured (and
likewise when all configured providers fail), `FoodApiService.analyzeFood`
does **not** fall back to a local lookup — it throws
"No food detection API configured or all APIs failed". -/
theorem analyzeFood_throws_counterexample :
    FoodApiService.analyzeFood false (.error "") false (.error "") =
      .error "No food detection API configured or all APIs failed" := rfl

/-- Claim C1 (amended): `FoodDetectionService.detectFood` (aiServices.ts)
never throws: when every provider attempt fails it returns the
pseudo-random pick from the static `mockFoods` table, which is always a
fully populated detection result.  `FoodApiService.analyzeFood` (api.ts),
by contrast, throws in that situation (see the counterexample). -/
theorem detectFood_never_fails (e₁ e₂ e₃ : String) (idx : Nat) :
    FoodDetectionService.detectFood (.error e₁) (.error e₂) (.error e₃) idx =
      FoodDetectionService.mockDetection idx ∧
    FoodDetectionService.mockDetection idx ∈ FoodDetectionService.mockFoods ∧
    DetectedOk (FoodDetectionService.mockDetection idx) := by
  have hmem : FoodDetectionService.mockDetection idx ∈ FoodDetectionService.mockFoods :=
    List.get_mem _ _ _
  exact ⟨rfl, hmem, mockFoods_all_ok _ hmem⟩

/-- Claim C5: one provider's failure never prevents trying the next.  If
the primary detection provider fails and the secondary succeeds with
`r`, the aiServices coordinator returns `r` (whatever the third
provider would do); if the primary recipe provider fails and the
secondary succeeds with `rs`, the api.ts coordinator returns `rs`.  The
primary's error is not propagated in either case. -/
theorem secondary_provider_result_returned (e : String) (r : DetectedFood)
    (hfR : Except String DetectedFood) (idx : Nat) (e' : String)
    (rs : List ApiRecipe) (df : FoodDetectionResult) :
    FoodDetectionService.detectFood (.error e) (.ok r) hfR idx = r ∧
    FoodApiService.getRecipes true (.error e') true (.ok rs) df = rs :=
  ⟨rfl, rfl⟩

/-- Claim C2 counterexample: when `FoodApiService.getRecipes` falls back
to mock data (no recipe provider configured), it returns
`getMockRecipes`, which holds exactly one recipe — not between 3 and 4. -/
theorem getRecipes_mock_count_counterexample :
    (FoodApiService.getRecipes false (.error "") false (.error "") samplePastaDetection).length
      = 1 ∧
    ¬ 3 ≤ (FoodApiService.getRecipes false (.error "") false (.error "")
      samplePastaDetection).length := ⟨rfl, by decide⟩

/-! ## String helper lemmas -/

/-- A string's character list is empty exactly when it is `""`. -/
theorem data_eq_nil_iff (s : String) : s.data = [] ↔ s = "" := by
  constructor
  · intro h
    cases s with
    | mk l => exact congrArg String.mk h
  · intro h
    rw [h]

/-- Appending a nonempty string on the right yields a nonempty string. -/
theorem append_ne_empty_right (s t : String) (h : t ≠ "") : s ++ t ≠ "" := by
  intro he
  have hd : s.data ++ t.data = [] := by
    have h2 := congrArg String.data he
    rw [String.data_append] at h2
    exact h2
  exact h ((data_eq_nil_iff t).mp (List.append_eq_nil.mp hd).2)

/-- Appending a nonempty string on the left yields a nonempty string. -/
theorem append_ne_empty_left (s t : String) (h : s ≠ "") : s ++ t ≠ "" := by
  intro he
  have hd : s.data ++ t.data = [] := by
    have h2 := congrArg String.data he
    rw [String.data_append] at h2
    exact h2
  exact h ((data_eq_nil_iff s).mp (List.append_eq_nil.mp hd).1)

/-- `jsOr` with a nonempty default never yields the empty string. -/
theorem jsOrS_ne_empty (v : Option String) (d : String) (hd : d ≠ "") : jsOrS v d ≠ "" := by
  cases v with
  | none => exact hd
  | some s =>
    show (if s = "" then d else s) ≠ ""
    by_cases hs : s = ""
    · rw [if_pos hs]; exact hd
    · rw [if_neg hs]; exact hs

/-- `getRecipeImage` always returns one of its nonempty URLs. -/
theorem getRecipeImage_ne_empty (t : Option String) (c : String) :
    OpenAIService.getRecipeImage t c ≠ "" := by
  unfold OpenAIService.getRecipeImage
  cases hf : OpenAIService.imageMap.find? (fun p => p.1 == c) with
  | none => decide
  | some p =>
    have hmem := List.mem_of_find?_eq_some hf
    have hall : ∀ q ∈ OpenAIService.imageMap, q.2 ≠ "" := by decide
    exact hall p hmem

/-! ## Recipe counts of the mock fallback (claim C2) -/

/-- Every recipe set selectable by `getRelevantRecipes` has exactly two
entries (so the under-3 padding branch is always taken). -/
theorem recipeSetFor_length_two (key : String) :
    (IndexPage.recipeSetFor key).length = 2 := by
  unfold IndexPage.recipeSetFor
  repeat' split
  all_goals rfl

/-- Claim C2 (amended): the 3-to-4 bound holds for the Index.tsx mock
flow: `getRelevantRecipes` always returns between 3 and 4 recipes
(each keyed set has 2 entries and is padded from the default pool).  The
`FoodApiService.getRecipes` mock fallback, by contrast, returns exactly
one recipe (see the counterexample). -/
theorem getRelevantRecipes_count (foodName category : String) :
    3 ≤ (IndexPage.getRelevantRecipes foodName category).length ∧
    (IndexPage.getRelevantRecipes foodName category).length ≤ 4 := by
  have h2 := recipeSetFor_length_two (IndexPage.recipeKeyOf foodName)
  have hd : IndexPage.defaultRecipes.length = 2 := rfl
  have hlen : (IndexPage.getRelevantRecipes foodName category).length = 4 := by
    simp only [IndexPage.getRelevantRecipes]
    rw [if_pos (by rw [h2]; norm_num)]
    rw [List.length_take, List.length_append, h2, List.length_take, hd]
    norm_num
  rw [hlen]
  exact ⟨by norm_num, le_refl 4⟩

/-! ## Confidence clamping (claim C4) -/

/-- Claim C4 counterexample: `ClarifaiService.detectFood` only rounds
the provider value to two decimals — it does not clamp.  A raw value of
`3/2` flows through to a returned confidence of `3/2 > 1`. -/
theorem clarifai_confidence_not_clamped_counterexample :
    (ClarifaiService.detectFromConcepts [{ name := "sushi", value := 3/2 }]).toOption.map
      (fun r => r.confidence) = some (3/2) ∧ ¬ ((3/2 : ℚ) ≤ 1) := by
  constructor
  · simp only [ClarifaiService.detectFromConcepts, Except.toOption, Option.map]
    norm_num [ClarifaiService.roundConfidence]
  · norm_num

/-- Claim C4 (amended): `OpenAIService.detectFood` clamps the confidence
of every parsed payload to [0, 1] (with falsy values defaulting to 0.8);
`ClarifaiService.detectFood` does not clamp (see the counterexample). -/
theorem openai_confidence_clamped (raw : Option ℚ) (p : OpenAIService.DetectPayload) :
    0 ≤ OpenAIService.clampConfidence raw ∧ OpenAIService.clampConfidence raw ≤ 1 ∧
    0 ≤ (OpenAIService.normalizeDetection p).confidence ∧
    (OpenAIService.normalizeDetection p).confidence ≤ 1 := by
  have h0 : ∀ v : Option ℚ, 0 ≤ OpenAIService.clampConfidence v := fun v =>
    le_min (le_max_right _ _) zero_le_one
  have h1 : ∀ v : Option ℚ, OpenAIService.clampConfidence v ≤ 1 := fun v =>
    min_le_right _ _
  exact ⟨h0 raw, h1 raw, h0 p.confidence, h1 p.confidence⟩

/-! ## JSON extraction and parse-failure flow (claim C6) -/

/-- Claim C6 counterexample.  Two divergences from the claim at concrete
inputs: (1) on a response with no JSON at all, OpenAI's detection does
not fail the provider — it returns the `parseTextResponse` result, so the
coordinator does **not** advance to the configured-and-succeeding
secondary provider; (2) the extraction is the greedy first-`{`-to-last-`}`
span, not the first well-formed JSON substring: on a text containing two
objects it extracts the whole span rather than the first object. -/
theorem json_parse_failure_counterexample :
    braceSpan '{' '}' ("no json here".data) = none ∧
    OpenAIService.detectFromContent "no json here" none =
      OpenAIService.parseTextResponse "no json here" ∧
    FoodApiService.analyzeFood true (.ok (OpenAIService.detectFromContent "no json here" none))
        true (.ok clarifaiAlt) =
      .ok (OpenAIService.parseTextResponse "no json here") ∧
    (OpenAIService.parseTextResponse "no json here").name = "Detected Food" ∧
    clarifaiAlt.name = "From Clarifai" ∧
    firstJsonSubstring ("\x7b\"a\":1\x7d x \x7b\"b\":2\x7d".data) = some ("\x7b\"a\":1\x7d".data) ∧
    braceSpan '{' '}' ("\x7b\"a\":1\x7d x \x7b\"b\":2\x7d".data) =
      some ("\x7b\"a\":1\x7d x \x7b\"b\":2\x7d".data) := by
  refine ⟨rfl, rfl, rfl, rfl, rfl, by decide, by decide⟩

/-- Claim C6 (amended): the extraction is the greedy span from the first
opening brace/bracket to the last closing one; when extraction or
`JSON.parse` fails, `OpenAIService.detectFood` returns the
`parseTextResponse` text-parse of the same response and
`OpenAIService.generateRecipes` returns `generateFallbackRecipes` — the
provider is *not* treated as failed and the chain does not advance on a
parse failure (only an HTTP failure or empty content fails the
provider). -/
theorem parse_failure_internal_fallback (content : String)
    (parsedD : Option OpenAIService.DetectPayload)
    (parsedR : Option (List OpenAIService.RawRecipe))
    (df : FoodDetectionResult) (count : Nat) :
    ((braceSpan '{' '}' content.data = none ∨ parsedD = none) →
      OpenAIService.detectFromContent content parsedD =
        OpenAIService.parseTextResponse content) ∧
    ((braceSpan '[' ']' content.data = none ∨ parsedR = none) →
      OpenAIService.generateFromContent df content parsedR count =
        OpenAIService.generateFallbackRecipes df count) := by
  constructor
  · intro h
    rcases h with h | h
    · simp [OpenAIService.detectFromContent, h]
    · cases hb : braceSpan '{' '}' content.data <;>
        simp [OpenAIService.detectFromContent, hb, h]
  · intro h
    rcases h with h | h
    · simp [OpenAIService.generateFromContent, h]
    · cases hb : braceSpan '[' ']' content.data <;>
        simp [OpenAIService.generateFromContent, hb, h]

/-- Claim C6 witness: the amended theorem applied to a concrete
brace-free and bracket-free response. -/
theorem parse_failure_internal_fallback_witness :
    OpenAIService.detectFromContent "plain text" none =
      OpenAIService.parseTextResponse "plain text" ∧
    OpenAIService.generateFromContent samplePastaDetection "plain text" none 4 =
      OpenAIService.generateFallbackRecipes samplePastaDetection 4 := by
  have h := parse_failure_internal_fallback "plain text" none none samplePastaDetection 4
  exact ⟨h.1 (Or.inl rfl), h.2 (Or.inl rfl)⟩

/-! ## The worked example (claim C7) -/

/-- Claim C7: with no providers configured, "Chicken Teriyaki Bowl" is
categorized "Protein" (keyword "chicken"), and the mock recipe lookup
selects the "chicken" set (2 entries, fewer than 3) padded with the
first two default-pool recipes up to 4 total. -/
theorem chicken_teriyaki_example :
    ClarifaiService.categorizeFood "Chicken Teriyaki Bowl" = "Protein" ∧
    IndexPage.recipeKeyOf "Chicken Teriyaki Bowl" = "chicken" ∧
    IndexPage.getRelevantRecipes "Chicken Teriyaki Bowl" "Protein" =
      IndexPage.chickenRecipes ++ IndexPage.defaultRecipes.take 2 ∧
    (IndexPage.getRelevantRecipes "Chicken Teriyaki Bowl" "Protein").length = 4 :=
  ⟨rfl, rfl, rfl, rfl⟩

/-! ## Fully populated results (claim C8) -/

/-- Claim C8 counterexample: `SpoonacularService.getRecipeDetails`
passes `title` through from the raw payload with no default, so a
payload with an `id` but no `title` yields a successfully returned
recipe whose required `title` field is missing. -/
theorem spoonacular_missing_title_counterexample :
    (SpoonacularService.getRecipeDetails spoonRawNoTitle).toOption.map
      (fun r => r.title.isSome) = some false ∧
    SpoonacularService.getRecipeDetails spoonRawNoTitle = .ok rNoTitle ∧
    ¬ RecipeOk rNoTitle := by
  refine ⟨rfl, rfl, ?_⟩
  intro hok
  exact absurd hok.1 (by decide)

/-- Claim C8 (amended): recipes produced by the OpenAI normalization,
the api.ts mock fallback and the OpenAI fallback templates are always
fully populated, and detections produced by the OpenAI normalization
have nonempty name/category and clamped confidence; Spoonacular's
`getRecipeDetails` populates description, image and cookTime but passes
`title` through unchanged, so its results are fully populated only when
the raw payload carries a title. -/
theorem results_fully_populated (df : FoodDetectionResult) (raw : OpenAIService.RawRecipe)
    (i count : Nat) (p : OpenAIService.DetectPayload) (sraw : SpoonacularService.RawRecipe)
    (r : ApiRecipe) :
    RecipeOk (OpenAIService.mapGeneratedRecipe df i raw) ∧
    (∀ m ∈ FoodApiService.getMockRecipes df, RecipeOk m) ∧
    (∀ m ∈ OpenAIService.generateFallbackRecipes df count, RecipeOk m) ∧
    ((OpenAIService.normalizeDetection p).name ≠ "" ∧
     (OpenAIService.normalizeDetection p).category ≠ "" ∧
     0 ≤ (OpenAIService.normalizeDetection p).confidence ∧
     (OpenAIService.normalizeDetection p).confidence ≤ 1) ∧
    (SpoonacularService.getRecipeDetails sraw = .ok r →
     r.title = sraw.title ∧ r.description ≠ "" ∧ r.image ≠ "" ∧ r.cookTime ≠ "") := by
  refine ⟨?_, ?_, ?_, ?_, ?_⟩
  · refine ⟨rfl, ?_, ?_, ?_, ?_⟩
    · exact jsOrS_ne_empty raw.id ("openai_" ++ toString (i + 1))
        (append_ne_empty_left "openai_" _ (by decide))
    · exact jsOrS_ne_empty raw.description "Delicious recipe generated by AI" (by decide)
    · exact getRecipeImage_ne_empty raw.title df.category
    · exact jsOrS_ne_empty raw.cookTime "30 mins" (by decide)
  · intro m hm
    simp only [FoodApiService.getMockRecipes, List.mem_singleton] at hm
    subst hm
    refine ⟨rfl, ?_, ?_, ?_, ?_⟩
    · show ("mock1" : String) ≠ ""
      decide
    · exact append_ne_empty_left "A delicious recipe featuring " df.name (by decide)
    · show ("https://images.unsplash.com/photo-1546069901-ba9599a7e63c?w=400&h=300&fit=crop" : String) ≠ ""
      decide
    · show ("25 mins" : String) ≠ ""
      decide
  · intro m hm
    simp only [OpenAIService.generateFallbackRecipes, List.mem_map] at hm
    obtain ⟨j, hj, rfl⟩ := hm
    refine ⟨rfl, ?_, ?_, ?_, ?_⟩
    · exact append_ne_empty_left "fallback_" _ (by decide)
    · exact append_ne_empty_left "A delicious recipe featuring " df.name (by decide)
    · exact getRecipeImage_ne_empty (some "") df.category
    · show ("30 mins" : String) ≠ ""
      decide
  · refine ⟨jsOrS_ne_empty p.name "Unknown Food" (by decide),
      jsOrS_ne_empty p.category "General" (by decide), ?_, ?_⟩
    · exact le_min (le_max_right _ _) zero_le_one
    · exact min_le_right _ _
  · intro hok
    unfold SpoonacularService.getRecipeDetails at hok
    cases hid : sraw.id with
    | none =>
      rw [hid] at hok
      exact absurd hok (by simp)
    | some rid =>
      rw [hid] at hok
      injection hok with hr
      subst hr
      refine ⟨rfl, ?_, ?_, ?_⟩
      · cases hsum : sraw.summary with
        | none => exact append_ne_empty_right "undefined" "..." (by decide)
        | some s => exact append_ne_empty_right _ "..." (by decide)
      · exact jsOrS_ne_empty sraw.image _ (by decide)
      · exact append_ne_empty_right _ " mins" (by decide)

/-- Claim C8 witness: the amended theorem applied at concrete values,
discharging the Spoonacular hypothesis with the title-less payload and
its concrete result. -/
theorem results_fully_populated_witness :
    RecipeOk (OpenAIService.mapGeneratedRecipe samplePastaDetection 0 openAIRawEmpty) ∧
    (rNoTitle.title = spoonRawNoTitle.title ∧ rNoTitle.description ≠ "" ∧
     rNoTitle.image ≠ "" ∧ rNoTitle.cookTime ≠ "") := by
  have h := results_fully_populated samplePastaDetection openAIRawEmpty 0 4
    openAIPayloadEmpty spoonRawNoTitle rNoTitle
  exact ⟨h.1, h.2.2.2.2 rfl⟩

/-! ## The saved-recipes toggle (claim C10) -/

/-- On a duplicate-free list the JS `filter(id => id !== recipeId)` is
`List.erase`. -/
theorem filter_ne_eq_erase (l : List String) (a : String) (h : l.Nodup) :
    l.filter (fun x => x ≠ a) = l.erase a := by
  rw [List.Nodup.erase_eq_filter h]
  apply List.filter_congr
  intro x hx
  by_cases hxa : x = a <;> simp [hxa]

/-- Claim C10 counterexample: toggling is not an involution up to list
equality — removing an id re-appends it at the end, so toggling "a"
twice on the duplicate-free list `["a", "b"]` yields `["b", "a"]`, not
the original. -/
theorem handleSaveRecipe_not_involutive_counterexample :
    IndexPage.handleSaveRecipe "a" (IndexPage.handleSaveRecipe "a" ["a", "b"]) = ["b", "a"] ∧
    IndexPage.handleSaveRecipe "a" (IndexPage.handleSaveRecipe "a" ["a", "b"]) ≠ ["a", "b"] := by
  constructor
  · decide
  · decide

/-- Claim C10 (amended): on a duplicate-free saved list, toggling the
same id twice yields a permutation of the original — a present id is
removed and then re-appended at the end, so the order can change — and
whenever the id was absent the double toggle returns exactly the
original list; one toggle preserves freedom from duplicates. -/
theorem handleSaveRecipe_toggle (recipeId : String) (prev : List String) (h : prev.Nodup) :
    (IndexPage.handleSaveRecipe recipeId (IndexPage.handleSaveRecipe recipeId prev)).Perm prev ∧
    (IndexPage.handleSaveRecipe recipeId prev).Nodup ∧
    (recipeId ∉ prev →
      IndexPage.handleSaveRecipe recipeId (IndexPage.handleSaveRecipe recipeId prev) = prev) := by
  by_cases hmem : recipeId ∈ prev
  · have h1 : IndexPage.handleSaveRecipe recipeId prev =
        prev.filter (fun x => x ≠ recipeId) := by
      unfold IndexPage.handleSaveRecipe
      rw [if_pos hmem]
    have hnotmem : recipeId ∉ prev.filter (fun x => x ≠ recipeId) := by
      intro hx
      have hx2 := (List.mem_filter.mp hx).2
      simp at hx2
    have h2 : IndexPage.handleSaveRecipe recipeId (IndexPage.handleSaveRecipe recipeId prev) =
        prev.filter (fun x => x ≠ recipeId) ++ [recipeId] := by
      rw [h1]
      unfold IndexPage.handleSaveRecipe
      rw [if_neg hnotmem]
    refine ⟨?_, ?_, ?_⟩
    · rw [h2, filter_ne_eq_erase prev recipeId h]
      exact (List.perm_append_singleton _ _).trans (List.perm_cons_erase hmem).symm
    · rw [h1]
      exact h.filter _
    · intro habs
      exact absurd hmem habs
  · have h1 : IndexPage.handleSaveRecipe recipeId prev = prev ++ [recipeId] := by
      unfold IndexPage.handleSaveRecipe
      rw [if_neg hmem]
    have hmem2 : recipeId ∈ prev ++ [recipeId] := by simp
    have hl : prev.filter (fun x => x ≠ recipeId) = prev :=
      List.filter_eq_self.mpr (fun a ha => decide_eq_true (fun he => hmem (he ▸ ha)))
    have hsingle : List.filter (fun x => x ≠ recipeId) [recipeId] = [] := by simp
    have h2 : IndexPage.handleSaveRecipe recipeId (IndexPage.handleSaveRecipe recipeId prev) =
        prev := by
      rw [h1]
      unfold IndexPage.handleSaveRecipe
      rw [if_pos hmem2, List.filter_append, hl, hsingle, List.append_nil]
    refine ⟨?_, ?_, fun _ => h2⟩
    · rw [h2]
    · rw [h1]
      refine h.append (List.nodup_singleton _) ?_
      intro a ha hb
      simp only [List.mem_singleton] at hb
      subst hb
      exact hmem ha

/-- Claim C10 witness: the amended theorem applied to the duplicate-free
list `["a", "b"]` and the absent id `"x"`. -/
theorem handleSaveRecipe_toggle_witness :
    (IndexPage.handleSaveRecipe "x" (IndexPage.handleSaveRecipe "x" ["a", "b"])).Perm
      ["a", "b"] ∧
    (IndexPage.handleSaveRecipe "x" ["a", "b"]).Nodup ∧
    IndexPage.handleSaveRecipe "x" (IndexPage.handleSaveRecipe "x" ["a", "b"]) = ["a", "b"] := by
  have h := handleSaveRecipe_toggle "x" ["a", "b"] (by decide)
  exact ⟨h.1, h.2.1, h.2.2 (by decide)⟩
